import Mathlib

/-!
Verification of the client-side session controller of the AI-chat-websocket
repository: the WebSocket hook (`src/frontend/src/hooks/useWebSocket.ts`),
the chat store (`src/frontend/src/stores/chatStore.ts`), the WebSocket store
(`useWebSocketStore`), and the send gating in
`src/frontend/src/components/chat/MessageInput.tsx`.

The TypeScript code is event-driven: socket callbacks (`onmessage`,
`onclose`) and user actions (`sendMessage`, `handleSend`) mutate two zustand
stores plus a `reconnectAttempts` ref.  We embed that state as the record
`ClientState` and each handler as a pure function from state to state plus
an explicit list of outgoing frames / scheduled effects.
-/

namespace AIChat

/-! ## Wire types (src/frontend/src/types/websocket.ts) -/

/-- `WSConnectionStatus` from types/websocket.ts. -/
inductive WSConnectionStatus
  | disconnected
  | connecting
  | authenticating
  | connected
  | error
  deriving DecidableEq, Repr

/-- `WSErrorCode` from types/websocket.ts (exhaustive enumeration). -/
inductive WSErrorCode
  | INVALID_JSON
  | UNKNOWN_TYPE
  | AUTH_REQUIRED
  | AUTH_FAILED
  | AUTH_TIMEOUT
  | NO_CONVERSATION
  | RATE_LIMIT_EXCEEDED
  | ALREADY_PROCESSING
  | INTERNAL_ERROR
  | EMPTY_CONTENT
  | MESSAGE_TOO_LONG
  | AI_TIMEOUT
  | AI_ERROR
  deriving DecidableEq, Repr

/-- The `{ message, code }` error record stored by `useWebSocketStore`. -/
structure WSError where
  message : String
  code : WSErrorCode
  deriving DecidableEq, Repr

/-- Incoming server frames (`WSIncomingMessage`), after `JSON.parse`.
The extra constructor `other` stands for a well-formed JSON frame whose
`type` string matches none of the four cases of the `switch` in
`ws.onmessage` (useWebSocket.ts:72), which therefore falls through with no
effect (the `switch` has no `default`). -/
inductive WSIncomingMessage
  | authSuccess (conversation_id : String)
  | chatStream (content : String) (done : Bool) (message_id : Option String)
  | chatError (error : String) (code : WSErrorCode)
  | ping
  | other (ty : String)
  deriving DecidableEq, Repr

/-- Outgoing client frames (`WSOutgoingMessage`). -/
inductive WSOutgoingMessage
  | auth (token : String)
  | chatMessage (content : String)
  | pong
  deriving DecidableEq, Repr

/-! ## Store state -/

/-- The state slice of `useWebSocketStore` (status, error, conversationId). -/
structure WebSocketState where
  status : WSConnectionStatus
  error : Option WSError
  conversationId : Option String
  deriving DecidableEq, Repr

/-- `setStatus` of `useWebSocketStore`. -/
def setStatus (st : WSConnectionStatus) (s : WebSocketState) : WebSocketState :=
  { s with status := st }

/-- `setError` of `useWebSocketStore`: stores the error and forces
`status := "error"` when the error is non-null, otherwise keeps the status. -/
def setError (e : Option WSError) (s : WebSocketState) : WebSocketState :=
  { s with error := e, status := if e.isSome then .error else s.status }

/-- `setConversationId` of `useWebSocketStore`. -/
def setConversationId (id : Option String) (s : WebSocketState) : WebSocketState :=
  { s with conversationId := id }

/-- `reset` of `useWebSocketStore`: back to the initial store values. -/
def reset (_s : WebSocketState) : WebSocketState :=
  { status := .disconnected, error := none, conversationId := none }

/-- `StreamingMessage` from stores/chatStore.ts: the streaming accumulator. -/
structure StreamingMessage where
  id : String
  content : String
  isStreaming : Bool
  deriving DecidableEq, Repr

/-- `Message` from types/message.ts (role kept as a plain string). -/
structure Message where
  id : String
  role : String
  content : String
  prompt_tokens : Option Nat
  completion_tokens : Option Nat
  model_used : String
  created_at : String
  deriving DecidableEq, Repr

/-- The state slice of `useChatStore` (stores/chatStore.ts). -/
structure ChatState where
  currentConversationId : Option String
  streamingMessage : Option StreamingMessage
  pendingUserMessage : Option Message
  deriving DecidableEq, Repr

/-- `startStreaming` (chatStore.ts:30): installs a fresh accumulator with
empty content, replacing any existing one. -/
def startStreaming (id : String) (s : ChatState) : ChatState :=
  { s with streamingMessage := some { id := id, content := "", isStreaming := true } }

/-- `appendStreamContent` (chatStore.ts:35): appends to the accumulator if
one exists, otherwise keeps `null`. -/
def appendStreamContent (content : String) (s : ChatState) : ChatState :=
  { s with streamingMessage :=
      s.streamingMessage.map (fun m => { m with content := m.content ++ content }) }

/-- `finishStreaming` (chatStore.ts:45): replaces the accumulator id by the
server message id and clears `isStreaming`, if an accumulator exists. -/
def finishStreaming (messageId : String) (s : ChatState) : ChatState :=
  { s with streamingMessage :=
      s.streamingMessage.map (fun m => { m with id := messageId, isStreaming := false }) }

/-- `clearStreaming` (chatStore.ts:56). -/
def clearStreaming (s : ChatState) : ChatState :=
  { s with streamingMessage := none }

/-- `setPendingUserMessage` (chatStore.ts:57). -/
def setPendingUserMessage (m : Option Message) (s : ChatState) : ChatState :=
  { s with pendingUserMessage := m }

/-! ## Combined client state -/

/-- All client-side state the `useWebSocket` hook touches: the WebSocket
store, the chat store, and the `reconnectAttempts` ref (useWebSocket.ts:23). -/
structure ClientState where
  ws : WebSocketState
  chat : ChatState
  reconnectAttempts : Nat
  deriving DecidableEq, Repr

/-- `maxReconnectAttempts` (useWebSocket.ts:24). -/
def maxReconnectAttempts : Nat := 3

/-! ## The onmessage handler (useWebSocket.ts:68-104) -/

/-- JS truthiness of `message.message_id`: `undefined` and the empty string
are falsy. -/
def messageIdTruthy : Option String → Bool
  | none => false
  | some m => m ≠ ""

/-- The `ws.onmessage` handler.  The input is `none` when `JSON.parse`
throws (the `catch` ignores malformed messages, useWebSocket.ts:101).
Returns the new client state and the frames sent in response.
`if (message.content)` and `if (message.done && message.message_id)` use JS
truthiness, so the empty string counts as absent. -/
def onMessage (msg : Option WSIncomingMessage) (s : ClientState) :
    ClientState × List WSOutgoingMessage :=
  match msg with
  | none => (s, [])
  | some (.authSuccess cid) =>
      ({ s with
          ws := setConversationId (some cid) (setError none (setStatus .connected s.ws)),
          reconnectAttempts := 0 }, [])
  | some (.chatStream content done mid) =>
      let chat1 := if content ≠ "" then appendStreamContent content s.chat else s.chat
      let chat2 :=
        if done && messageIdTruthy mid then finishStreaming (mid.getD "") chat1 else chat1
      ({ s with chat := chat2 }, [])
  | some (.chatError err code) =>
      ({ s with
          ws := setError (some { message := err, code := code }) s.ws,
          chat := clearStreaming s.chat }, [])
  | some .ping => (s, [.pong])
  | some (.other _) => (s, [])

/-- Process a sequence of incoming transport messages in arrival order,
discarding the sent frames. -/
def runMessages (msgs : List (Option WSIncomingMessage)) (s : ClientState) : ClientState :=
  msgs.foldl (fun s m => (onMessage m s).1) s

/-! ## The onclose handler (useWebSocket.ts:110-128) -/

/-- Result of the `ws.onclose` handler: the new client state, the delay (ms)
of the reconnect scheduled by `setTimeout` if any, and whether
`onDisconnected` was invoked. -/
structure CloseResult where
  state : ClientState
  scheduledDelay : Option Nat
  notifiedDisconnected : Bool
  deriving DecidableEq, Repr

/-- The `ws.onclose` handler, as a function of the close code.
It always clears the accumulator first; code 4001 reports `AUTH_FAILED` and
resets with no retry; an abnormal close (code ≠ 1000) with
`reconnectAttempts < maxReconnectAttempts` increments the counter and
schedules a reconnect after `min(1000 * 2 ** reconnectAttempts, 10000)` ms
(computed after the increment, useWebSocket.ts:121-122); otherwise it resets
and notifies `onDisconnected`. -/
def onClose (code : Nat) (s : ClientState) : CloseResult :=
  let s := { s with chat := clearStreaming s.chat }
  if code = 4001 then
    { state := { s with
        ws := reset (setError (some { message := "Authentication failed",
                                      code := .AUTH_FAILED }) s.ws) },
      scheduledDelay := none,
      notifiedDisconnected := false }
  else if code ≠ 1000 ∧ s.reconnectAttempts < maxReconnectAttempts then
    let attempts := s.reconnectAttempts + 1
    { state := { s with reconnectAttempts := attempts },
      scheduledDelay := some (min (1000 * 2 ^ attempts) 10000),
      notifiedDisconnected := false }
  else
    { state := { s with ws := reset s.ws },
      scheduledDelay := none,
      notifiedDisconnected := true }

/-! ## sendMessage (useWebSocket.ts:157-172) and the MessageInput gate -/

/-- `sendMessage` (useWebSocket.ts:157): returns `false` without any effect
when the socket is not open; otherwise installs a fresh accumulator keyed by
a client-generated uuid, sends the `chat.message` frame and returns `true`.
`socketOpen` stands for `wsRef.current?.readyState === WebSocket.OPEN`;
`uuid` stands for `crypto.randomUUID()`. -/
def sendMessage (socketOpen : Bool) (uuid : String) (content : String)
    (s : ClientState) : Bool × ClientState × List WSOutgoingMessage :=
  if !socketOpen then
    (false, s, [])
  else
    (true, { s with chat := startStreaming uuid s.chat }, [.chatMessage content])

/-- `streamingMessage?.isStreaming ?? false` (MessageInput.tsx:48). -/
def isStreamingNow (sm : Option StreamingMessage) : Bool :=
  (sm.map (·.isStreaming)).getD false

/-- `canSend` (MessageInput.tsx:49): connected, not streaming, and the
trimmed content is non-empty. -/
def canSend (status : WSConnectionStatus) (sm : Option StreamingMessage)
    (content : String) : Bool :=
  status = .connected && !isStreamingNow sm && content.trim.length > 0

/-- Result of `handleSend`: whether `onSend` (= `sendMessage`) was invoked,
the new client state, and the frames sent. -/
structure SendResult where
  invoked : Bool
  sent : Bool
  state : ClientState
  frames : List WSOutgoingMessage
  deriving DecidableEq, Repr

/-- `handleSend` (MessageInput.tsx:51-78): returns early unless `canSend`
and the trimmed content is within `MAX_USER_MESSAGE_LENGTH`; otherwise
stores the optimistic pending user message, invokes `sendMessage` with the
trimmed content, and rolls the pending message back when dispatch failed.
`uuid`/`now` stand for `crypto.randomUUID()`/`new Date().toISOString()`;
`model` for the selected model value. -/
def handleSend (maxLen : Nat) (socketOpen : Bool) (uuid now model : String)
    (content : String) (s : ClientState) : SendResult :=
  if !canSend s.ws.status s.chat.streamingMessage content then
    { invoked := false, sent := false, state := s, frames := [] }
  else
    let trimmed := content.trim
    if trimmed.length > maxLen then
      { invoked := false, sent := false, state := s, frames := [] }
    else
      let pending : Message :=
        { id := uuid, role := "user", content := trimmed,
          prompt_tokens := none, completion_tokens := none,
          model_used := model, created_at := now }
      let s1 := { s with chat := setPendingUserMessage (some pending) s.chat }
      let (ok, s2, frames) := sendMessage socketOpen uuid trimmed s1
      if ok then
        { invoked := true, sent := true, state := s2, frames := frames }
      else
        { invoked := true, sent := false,
          state := { s2 with chat := setPendingUserMessage none s2.chat },
          frames := frames }

/-- In-order concatenation of a list of strings. -/
def concatAll : List String → String
  | [] => ""
  | c :: rest => c ++ concatAll rest

/-- The initial client state: both stores at their initial values and
`reconnectAttempts = 0`. -/
def initialState : ClientState :=
  { ws := { status := .disconnected, error := none, conversationId := none },
    chat := { currentConversationId := none, streamingMessage := none,
              pendingUserMessage := none },
    reconnectAttempts := 0 }

/-! ## Helper lemmas -/

lemma str_append_assoc (a b c : String) : a ++ b ++ c = a ++ (b ++ c) := by
  apply String.ext
  simp

/-- Processing one `done:false` delta maps the accumulator by appending the
delta's content (a missing accumulator stays missing); the JS truthiness
guard on empty content makes no difference because appending `""` is the
identity. -/
lemma onMessage_delta_stream (c : String) (s : ClientState) :
    ((onMessage (some (.chatStream c false none)) s).1).chat.streamingMessage
      = s.chat.streamingMessage.map (fun m => { m with content := m.content ++ c }) := by
  by_cases hc : c = ""
  · subst hc
    cases hm : s.chat.streamingMessage with
    | none => simp [onMessage, hm]
    | some m => simp [onMessage, hm, String.append_empty]
  · simp [onMessage, hc, appendStreamContent]

/-- Folding a list of `done:false` deltas over the handler appends the
in-order concatenation of their contents to an existing accumulator. -/
lemma runMessages_deltas (deltas : List String) (s : ClientState) (m : StreamingMessage)
    (h : s.chat.streamingMessage = some m) :
    (runMessages (deltas.map fun c => some (.chatStream c false none)) s).chat.streamingMessage
      = some { m with content := m.content ++ concatAll deltas } := by
  induction deltas generalizing s m with
  | nil =>
      simp [runMessages, concatAll, h]
  | cons c rest ih =>
      simp only [List.map_cons, runMessages, List.foldl_cons]
      have hstep := onMessage_delta_stream c s
      rw [h] at hstep
      have := ih ((onMessage (some (.chatStream c false none)) s).1)
        { m with content := m.content ++ c } (by simpa using hstep)
      simpa [runMessages, concatAll, str_append_assoc] using this

/-! ## Claim theorems -/

/-- C1: after `startStreaming` keys a fresh accumulator with a correlation
id, processing the generation's `done:false` `chat.stream` frames in arrival
order leaves the accumulator holding exactly the in-order concatenation of
their `content` fields (no loss, duplication or reordering); processing the
terminal `chat.stream{content:"", done:true, message_id}` frame then
replaces the correlation id by the server message id, clears `isStreaming`,
and leaves the accumulated content unchanged. -/
theorem c1_stream_accumulation (s0 : ClientState) (cid mid : String)
    (deltas : List String) (hmid : mid ≠ "") :
    (runMessages (deltas.map fun c => some (.chatStream c false none))
        { s0 with chat := startStreaming cid s0.chat }).chat.streamingMessage
      = some { id := cid, content := concatAll deltas, isStreaming := true } ∧
    ((onMessage (some (.chatStream "" true (some mid)))
        (runMessages (deltas.map fun c => some (.chatStream c false none))
          { s0 with chat := startStreaming cid s0.chat })).1).chat.streamingMessage
      = some { id := mid, content := concatAll deltas, isStreaming := false } := by
  have hstart :
      ({ s0 with chat := startStreaming cid s0.chat } : ClientState).chat.streamingMessage
        = some { id := cid, content := "", isStreaming := true } := by
    simp [startStreaming]
  have hrun := runMessages_deltas deltas _ _ hstart
  rw [String.empty_append] at hrun
  refine ⟨hrun, ?_⟩
  simp [onMessage, messageIdTruthy, hmid, finishStreaming, hrun]

/-- C1 witness: a concrete three-delta generation. -/
theorem c1_stream_accumulation_witness :
    ("m-42" : String) ≠ "" ∧
    ((runMessages (["He", "llo", " world"].map fun c => some (.chatStream c false none))
        { initialState with chat := startStreaming "corr-1" initialState.chat }).chat.streamingMessage
      = some { id := "corr-1", content := concatAll ["He", "llo", " world"],
               isStreaming := true } ∧
    ((onMessage (some (.chatStream "" true (some "m-42")))
        (runMessages (["He", "llo", " world"].map fun c => some (.chatStream c false none))
          { initialState with chat := startStreaming "corr-1" initialState.chat })).1).chat.streamingMessage
      = some { id := "m-42", content := concatAll ["He", "llo", " world"],
               isStreaming := false }) :=
  ⟨by decide, c1_stream_accumulation initialState "corr-1" "m-42" ["He", "llo", " world"]
    (by decide)⟩

/-- C6: a `chat.error` frame makes the error (message and code) the visible
status — `status = error` — and discards the streaming accumulator entirely
(`streamingMessage = none`), sending nothing in response. -/
theorem c6_chat_error_discards_accumulator (s : ClientState) (err : String)
    (code : WSErrorCode) :
    ((onMessage (some (.chatError err code)) s).1).ws.status = .error ∧
    ((onMessage (some (.chatError err code)) s).1).ws.error
      = some { message := err, code := code } ∧
    ((onMessage (some (.chatError err code)) s).1).chat.streamingMessage = none ∧
    (onMessage (some (.chatError err code)) s).2 = [] := by
  refine ⟨rfl, rfl, rfl, rfl⟩

/-- C7: an `auth.success` frame transitions to `connected`, clears the
recorded error, resets `reconnectAttempts` to 0 and binds the conversation
id; a duplicate `auth.success` is idempotent — it reproduces the exact same
client state. -/
theorem c7_auth_success_idempotent (s : ClientState) (cid : String) :
    ((onMessage (some (.authSuccess cid)) s).1).ws.status = .connected ∧
    ((onMessage (some (.authSuccess cid)) s).1).ws.error = none ∧
    ((onMessage (some (.authSuccess cid)) s).1).ws.conversationId = some cid ∧
    ((onMessage (some (.authSuccess cid)) s).1).reconnectAttempts = 0 ∧
    (onMessage (some (.authSuccess cid))
        ((onMessage (some (.authSuccess cid)) s).1)).1
      = (onMessage (some (.authSuccess cid)) s).1 := by
  refine ⟨rfl, rfl, rfl, rfl, rfl⟩

/-- C8: a `ping` frame is answered synchronously by exactly one `pong`
frame, and the client state (status, error, conversation id, accumulator,
reconnect counter) is entirely unchanged. -/
theorem c8_ping_pong_no_state_change (s : ClientState) :
    onMessage (some .ping) s = (s, [.pong]) := by
  rfl

/-- C9: an unparseable transport message, or a parsed frame whose type is
none of the four handled cases, leaves the client state entirely unchanged
and sends nothing. -/
theorem c9_unknown_frames_ignored (s : ClientState) (ty : String) :
    onMessage none s = (s, []) ∧ onMessage (some (.other ty)) s = (s, []) := by
  refine ⟨rfl, rfl⟩

/-- Shape of `onClose` on an abnormal close while attempts remain. -/
lemma onClose_abnormal (code : Nat) (s : ClientState)
    (h1 : code ≠ 1000) (h2 : code ≠ 4001)
    (h3 : s.reconnectAttempts < maxReconnectAttempts) :
    onClose code s =
      { state := { s with chat := clearStreaming s.chat,
                          reconnectAttempts := s.reconnectAttempts + 1 },
        scheduledDelay := some (min (1000 * 2 ^ (s.reconnectAttempts + 1)) 10000),
        notifiedDisconnected := false } := by
  simp [onClose, h1, h2, h3]

/-- Shape of `onClose` when no reconnect is scheduled (normal close or
attempts exhausted). -/
lemma onClose_giveup (code : Nat) (s : ClientState)
    (h2 : code ≠ 4001)
    (h3 : ¬(code ≠ 1000 ∧ s.reconnectAttempts < maxReconnectAttempts)) :
    onClose code s =
      { state := { s with chat := clearStreaming s.chat, ws := reset s.ws },
        scheduledDelay := none,
        notifiedDisconnected := true } := by
  simp only [onClose, if_neg h2]
  rw [if_neg (by simpa [clearStreaming] using h3)]

/-- C2: an abnormal close (code ≠ 1000, ≠ 4001) with `reconnectAttempts <
3` schedules exactly one reconnect and increments the counter; the delay is
`min(1000 * 2 ^ reconnectAttempts, 10000)` ms computed at the incremented
counter, giving 2000/4000/8000 ms for attempts 1/2/3 and never exceeding
10000 ms. -/
theorem c2_backoff_schedule (code : Nat) (s : ClientState)
    (h1 : code ≠ 1000) (h2 : code ≠ 4001)
    (h3 : s.reconnectAttempts < maxReconnectAttempts) :
    (onClose code s).state.reconnectAttempts = s.reconnectAttempts + 1 ∧
    (onClose code s).scheduledDelay
      = some (min (1000 * 2 ^ (s.reconnectAttempts + 1)) 10000) ∧
    (s.reconnectAttempts = 0 → (onClose code s).scheduledDelay = some 2000) ∧
    (s.reconnectAttempts = 1 → (onClose code s).scheduledDelay = some 4000) ∧
    (s.reconnectAttempts = 2 → (onClose code s).scheduledDelay = some 8000) ∧
    ∀ d, (onClose code s).scheduledDelay = some d → d ≤ 10000 := by
  rw [onClose_abnormal code s h1 h2 h3]
  refine ⟨rfl, rfl, ?_, ?_, ?_, ?_⟩
  · intro h; rw [h]; rfl
  · intro h; rw [h]; rfl
  · intro h; rw [h]; rfl
  · intro d hd
    simp only [Option.some.injEq] at hd
    omega

/-- C2 witness: the first abnormal close from a fresh state schedules a
2000 ms reconnect. -/
theorem c2_backoff_schedule_witness :
    ((1006 : Nat) ≠ 1000 ∧ (1006 : Nat) ≠ 4001 ∧
      initialState.reconnectAttempts < maxReconnectAttempts) ∧
    ((onClose 1006 initialState).state.reconnectAttempts
        = initialState.reconnectAttempts + 1 ∧
      (onClose 1006 initialState).scheduledDelay
        = some (min (1000 * 2 ^ (initialState.reconnectAttempts + 1)) 10000) ∧
      (initialState.reconnectAttempts = 0 →
        (onClose 1006 initialState).scheduledDelay = some 2000) ∧
      (initialState.reconnectAttempts = 1 →
        (onClose 1006 initialState).scheduledDelay = some 4000) ∧
      (initialState.reconnectAttempts = 2 →
        (onClose 1006 initialState).scheduledDelay = some 8000) ∧
      ∀ d, (onClose 1006 initialState).scheduledDelay = some d → d ≤ 10000) :=
  ⟨⟨by decide, by decide, by decide⟩,
    c2_backoff_schedule 1006 initialState (by decide) (by decide) (by decide)⟩

/-- C3: a close with the auth-failure code 4001 records the
`AUTH_FAILED` error (making `status = error` visible in the intermediate
`setError` step), schedules no reconnect, leaves `reconnectAttempts`
untouched, and resets the store to `disconnected` — for every starting
state, however many attempts remain. -/
theorem c3_auth_failure_close_no_retry (s : ClientState) :
    (onClose 4001 s).scheduledDelay = none ∧
    (onClose 4001 s).state.reconnectAttempts = s.reconnectAttempts ∧
    (onClose 4001 s).state.ws.status = .disconnected ∧
    (onClose 4001 s).state.ws
      = reset (setError (some { message := "Authentication failed",
                                code := .AUTH_FAILED }) s.ws) ∧
    (setError (some { message := "Authentication failed",
                      code := .AUTH_FAILED }) s.ws).status = .error ∧
    (setError (some { message := "Authentication failed",
                      code := .AUTH_FAILED }) s.ws).error
      = some { message := "Authentication failed", code := .AUTH_FAILED } := by
  refine ⟨rfl, rfl, rfl, rfl, rfl, rfl⟩

/-- C4: starting from a fresh counter, three consecutive abnormal closes
each schedule a reconnect; a fourth abnormal close schedules none,
transitions to `disconnected`, and notifies the caller of permanent loss. -/
theorem c4_give_up_after_three (s0 : ClientState) (c1 c2 c3 c4 : Nat)
    (h0 : s0.reconnectAttempts = 0)
    (ha1 : c1 ≠ 1000) (hb1 : c1 ≠ 4001)
    (ha2 : c2 ≠ 1000) (hb2 : c2 ≠ 4001)
    (ha3 : c3 ≠ 1000) (hb3 : c3 ≠ 4001)
    (_ha4 : c4 ≠ 1000) (hb4 : c4 ≠ 4001) :
    ((onClose c1 s0).scheduledDelay).isSome = true ∧
    ((onClose c2 (onClose c1 s0).state).scheduledDelay).isSome = true ∧
    ((onClose c3 (onClose c2 (onClose c1 s0).state).state).scheduledDelay).isSome = true ∧
    (onClose c4 (onClose c3 (onClose c2 (onClose c1 s0).state).state).state).scheduledDelay
      = none ∧
    (onClose c4 (onClose c3 (onClose c2 (onClose c1 s0).state).state).state).state.ws.status
      = .disconnected ∧
    (onClose c4 (onClose c3 (onClose c2 (onClose c1 s0).state).state).state).notifiedDisconnected
      = true := by
  have e1 := onClose_abnormal c1 s0 ha1 hb1
    (by rw [h0]; exact Nat.zero_lt_succ 2)
  have a1 : (onClose c1 s0).state.reconnectAttempts = 1 := by
    rw [e1]; simp [h0]
  have e2 := onClose_abnormal c2 (onClose c1 s0).state ha2 hb2
    (by rw [a1]; exact Nat.lt_of_sub_eq_succ rfl)
  have a2 : (onClose c2 (onClose c1 s0).state).state.reconnectAttempts = 2 := by
    rw [e2]; simp [a1]
  have e3 := onClose_abnormal c3 (onClose c2 (onClose c1 s0).state).state ha3 hb3
    (by rw [a2]; exact Nat.lt_of_sub_eq_succ rfl)
  have a3 : (onClose c3 (onClose c2 (onClose c1 s0).state).state).state.reconnectAttempts
      = 3 := by rw [e3]; simp [a2]
  have e4 := onClose_giveup c4 (onClose c3 (onClose c2 (onClose c1 s0).state).state).state
    hb4 (by rw [a3]; simp [maxReconnectAttempts])
  refine ⟨by rw [e1]; rfl, by rw [e2]; rfl, by rw [e3]; rfl, by rw [e4],
    by rw [e4]; rfl, by rw [e4]⟩

/-- C4 witness: four abnormal closes with code 1006 from the initial
state. -/
theorem c4_give_up_after_three_witness :
    (initialState.reconnectAttempts = 0 ∧ (1006 : Nat) ≠ 1000 ∧ (1006 : Nat) ≠ 4001) ∧
    (((onClose 1006 initialState).scheduledDelay).isSome = true ∧
      ((onClose 1006 (onClose 1006 initialState).state).scheduledDelay).isSome = true ∧
      ((onClose 1006 (onClose 1006 (onClose 1006 initialState).state).state).scheduledDelay).isSome
        = true ∧
      (onClose 1006 (onClose 1006 (onClose 1006 (onClose 1006 initialState).state).state).state).scheduledDelay
        = none ∧
      (onClose 1006 (onClose 1006 (onClose 1006 (onClose 1006 initialState).state).state).state).state.ws.status
        = .disconnected ∧
      (onClose 1006 (onClose 1006 (onClose 1006 (onClose 1006 initialState).state).state).state).notifiedDisconnected
        = true) :=
  ⟨⟨by decide, by decide, by decide⟩,
    c4_give_up_after_three initialState 1006 1006 1006 1006 (by decide) (by decide)
      (by decide) (by decide) (by decide) (by decide) (by decide) (by decide) (by decide)⟩

/-- C5: the UI gate (`handleSend`) invokes `sendMessage` only when the
status is `connected` and no accumulator is streaming; `sendMessage` itself
returns `true` exactly when the socket is open, in which case exactly the
`chat.message` frame is dispatched and a fresh accumulator is started, and
returns `false` on a non-open socket with no frame sent and the state
untouched. -/
theorem c5_sendMessage_dispatch (socketOpen : Bool) (maxLen : Nat)
    (uuid now model content : String) (s : ClientState) :
    ((handleSend maxLen socketOpen uuid now model content s).invoked = true →
      s.ws.status = .connected ∧ isStreamingNow s.chat.streamingMessage = false) ∧
    ((sendMessage socketOpen uuid content s).1 = true ↔ socketOpen = true) ∧
    (sendMessage false uuid content s = (false, s, [])) ∧
    (sendMessage true uuid content s
      = (true, { s with chat := startStreaming uuid s.chat },
          [.chatMessage content])) ∧
    ((sendMessage socketOpen uuid content s).1 = true ↔
      (sendMessage socketOpen uuid content s).2.2 = [.chatMessage content]) := by
  refine ⟨?_, ?_, rfl, rfl, ?_⟩
  · intro hinv
    by_cases hgate : canSend s.ws.status s.chat.streamingMessage content = true
    · have := hgate
      simp only [canSend, Bool.and_eq_true, decide_eq_true_eq] at this
      exact ⟨this.1.1, by simpa using this.1.2⟩
    · exfalso
      simp only [handleSend, hgate, Bool.not_true] at hinv
      simp at hgate
      simp [hgate] at hinv
  · cases socketOpen <;> simp [sendMessage]
  · cases socketOpen <;> simp [sendMessage]

/-- C5 witness: on an open socket from a connected, non-streaming state the
frame is dispatched. -/
theorem c5_sendMessage_dispatch_witness :
    ((handleSend 4000 true "u-1" "t0" "gpt-4o" "hi"
        { initialState with ws := { initialState.ws with status := .connected } }).invoked
        = true →
      ({ initialState with ws := { initialState.ws with status := .connected } } : ClientState).ws.status
          = .connected ∧
        isStreamingNow
          ({ initialState with
              ws := { initialState.ws with status := .connected } } : ClientState).chat.streamingMessage
          = false) ∧
    ((sendMessage true "u-1" "hi"
        { initialState with ws := { initialState.ws with status := .connected } }).1 = true ↔
      true = true) ∧
    (sendMessage false "u-1" "hi"
        { initialState with ws := { initialState.ws with status := .connected } }
      = (false, { initialState with ws := { initialState.ws with status := .connected } }, [])) ∧
    (sendMessage true "u-1" "hi"
        { initialState with ws := { initialState.ws with status := .connected } }
      = (true,
          { ({ initialState with ws := { initialState.ws with status := .connected } } : ClientState) with
              chat := startStreaming "u-1"
                ({ initialState with
                    ws := { initialState.ws with status := .connected } } : ClientState).chat },
          [.chatMessage "hi"])) ∧
    ((sendMessage true "u-1" "hi"
        { initialState with ws := { initialState.ws with status := .connected } }).1 = true ↔
      (sendMessage true "u-1" "hi"
        { initialState with ws := { initialState.ws with status := .connected } }).2.2
        = [.chatMessage "hi"]) :=
  c5_sendMessage_dispatch true 4000 "u-1" "t0" "gpt-4o" "hi"
    { initialState with ws := { initialState.ws with status := .connected } }

/-- C10: the accumulator is only ever created by `startStreaming` (which
installs exactly one fresh accumulator, replacing any existing one): when
the accumulator is absent, `appendStreamContent` and `finishStreaming` keep
it absent, and no incoming frame — in particular no late `chat.stream`
delta — resurrects it. -/
theorem c10_no_accumulator_resurrection (msg : Option WSIncomingMessage)
    (cs : ClientState) (ch : ChatState) (c mid uuid : String)
    (h : cs.chat.streamingMessage = none) :
    ((onMessage msg cs).1).chat.streamingMessage = none ∧
    (appendStreamContent c { ch with streamingMessage := none }).streamingMessage = none ∧
    (finishStreaming mid { ch with streamingMessage := none }).streamingMessage = none ∧
    (startStreaming uuid ch).streamingMessage
      = some { id := uuid, content := "", isStreaming := true } := by
  refine ⟨?_, rfl, rfl, rfl⟩
  match msg with
  | none => exact h
  | some (.authSuccess cid) => exact h
  | some (.chatStream c done mid) =>
      simp only [onMessage]
      split <;> split <;>
        simp [appendStreamContent, finishStreaming, h]
  | some (.chatError err code) => rfl
  | some .ping => exact h
  | some (.other ty) => exact h

/-- C10 witness: a late delta after the accumulator was discarded stays
ignored. -/
theorem c10_no_accumulator_resurrection_witness :
    initialState.chat.streamingMessage = none ∧
    (((onMessage (some (.chatStream "late" false none)) initialState).1).chat.streamingMessage
        = none ∧
      (appendStreamContent "late"
          { initialState.chat with streamingMessage := none }).streamingMessage = none ∧
      (finishStreaming "m-1"
          { initialState.chat with streamingMessage := none }).streamingMessage = none ∧
      (startStreaming "u-1" initialState.chat).streamingMessage
        = some { id := "u-1", content := "", isStreaming := true }) :=
  ⟨by decide,
    c10_no_accumulator_resurrection (some (.chatStream "late" false none)) initialState
      initialState.chat "late" "m-1" "u-1" (by decide)⟩

end AIChat
